import Mathlib

/-!
Shallow embedding of the repository `ghec-to-githubcloud`:
* `src/ghec-ghc-migration.py` — an interactive script that creates and
  configures a GitHub repository (labels, webhook, collaborators/teams by
  category, branch protection, boilerplate files, Slack notification,
  audit log, advanced protection, Tekton file, GCP/Vault secrets);
* `src/repo-creator-web/app.py` — a small Flask app whose
  `create_github_repo` performs the early part of the same pipeline.

Both scripts are sequences of remote platform calls.  We embed a run as the
list of platform calls it issues, in order.  Remote-call failure is modelled
by an oracle `PlatformCall → Option String` giving the exception message a
call raises (if any); calls inside a Python `try/except` block are marked
`guarded` and their exceptions are caught and logged, all other exceptions
abort the rest of the run.
-/

namespace GhecGhc

/-- The keyword arguments passed to `branch.edit_protection`. -/
structure Protection where
  required_approving_review_count : Nat
  enforce_admins : Bool
  dismiss_stale_reviews : Bool
  require_code_owner_reviews : Bool
  /-- `required_status_checks` keyword: `none` when the argument is not
  passed; otherwise the `strict` flag and the list of contexts. -/
  required_status_checks : Option (Bool × List String)
  deriving DecidableEq

/-- One remote/platform action issued by either script, with the arguments
the source passes.  `printMsg` records a console message printed by an
exception handler (the "logged" part of catch-and-log). -/
inductive PlatformCall where
  | getOrganization (org : String)
  | createRepo (repoName : String) (priv autoInit : Bool)
      (description defaultBranch : Option String)
  | replaceTopics (topics : List String)
  | createLabel (labelName color : String)
  | createHook (hookName url contentType : String)
      (events : List String) (active : Bool)
  | getUser (login : String)
  | addCollaborator (login permission : String)
  | getTeamBySlug (slug : String)
  | teamAddToRepos (slug : String)
  | teamSetRepoPermission (slug permission : String)
  | getBranch (branchName : String)
  | editProtection (p : Protection)
  | createFile (path message content branchName : String)
  | slackPost (url text : String)
  | auditAppend (repoName orgName category region : String)
      (codeowners : List String)
  | gcpCreateSecret (project secretId : String)
  | gcpAddSecretVersion (value : String)
  | vaultWrite (path key value : String)
  | printMsg (msg : String)
  deriving DecidableEq

/-! ### Python string primitives

`str.split(sep)`, `str.strip()` and `str.lower()` as used by the scripts,
modelled at the character level. -/

/-- Python `str.split(sep)` for a one-character separator, on a character
list: keeps empty fields, and `[] → [[]]` (Python `"".split(x) == [""]`). -/
def splitOnChar (sep : Char) : List Char → List (List Char)
  | [] => [[]]
  | c :: rest =>
    if c = sep then [] :: splitOnChar sep rest
    else
      match splitOnChar sep rest with
      | [] => [[c]]
      | h :: t => (c :: h) :: t

/-- Python `s.split(sep)` on strings. -/
def pySplit (sep : Char) (s : String) : List String :=
  (splitOnChar sep s.toList).map fun l => String.mk l

/-- Python `str.strip()`: drop leading and trailing whitespace. -/
def pyStrip (s : String) : String :=
  String.mk (((s.toList.dropWhile Char.isWhitespace).reverse.dropWhile
      Char.isWhitespace).reverse)

/-- Python `str.lower()` (ASCII behaviour). -/
def pyLower (s : String) : String :=
  String.mk (s.toList.map Char.toLower)

theorem splitOnChar_ne_nil (sep : Char) (l : List Char) :
    splitOnChar sep l ≠ [] := by
  induction l with
  | nil => simp [splitOnChar]
  | cons c rest ih =>
    simp only [splitOnChar]
    split
    · simp
    · cases h : splitOnChar sep rest with
      | nil => simp
      | cons h t => simp

theorem pySplit_ne_nil (sep : Char) (s : String) : pySplit sep s ≠ [] := by
  simp [pySplit, splitOnChar_ne_nil]

/-- A string with no occurrence of the separator splits into one field. -/
theorem splitOnChar_of_not_mem {sep : Char} {l : List Char}
    (h : sep ∉ l) : splitOnChar sep l = [l] := by
  induction l with
  | nil => rfl
  | cons c rest ih =>
    simp only [List.mem_cons, not_or] at h
    simp only [splitOnChar]
    rw [if_neg (fun hc => h.1 hc.symm), ih h.2]

/-! ### Execution with failure injection -/

/-- A failure oracle: the exception message (if any) each remote call
raises when issued. -/
def Oracle := PlatformCall → Option String

/-- The oracle of a run in which no remote call fails. -/
def noFail : Oracle := fun _ => none

/-- Issue a list of calls in order.  Returns the calls attempted (each call
is attempted exactly once, in program order) and the exception of the first
failing call, if any; calls after a failing call are not attempted. -/
def runCalls (oracle : Oracle) : List PlatformCall →
    List PlatformCall × Option String
  | [] => ([], none)
  | c :: rest =>
    match oracle c with
    | some e => ([c], some e)
    | none =>
      match runCalls oracle rest with
      | (t, r) => (c :: t, r)

/-- A segment of straight-line script code: either plain calls whose
exceptions propagate, or calls inside a `try/except` block whose handler
prints `handlerText` followed by the exception text. -/
inductive Seg where
  | plain (calls : List PlatformCall)
  | guarded (calls : List PlatformCall) (handlerText : String)

/-- Run one segment: a `guarded` segment catches any exception and logs it,
so it never propagates an error. -/
def runSeg (oracle : Oracle) : Seg → List PlatformCall × Option String
  | .plain cs => runCalls oracle cs
  | .guarded cs handlerText =>
    match runCalls oracle cs with
    | (t, none) => (t, none)
    | (t, some e) => (t ++ [.printMsg (handlerText ++ e)], none)

/-- Run segments in order; an error from a segment aborts the rest. -/
def runSegs (oracle : Oracle) : List Seg → List PlatformCall × Option String
  | [] => ([], none)
  | s :: rest =>
    match runSeg oracle s with
    | (t, some e) => (t, some e)
    | (t, none) =>
      match runSegs oracle rest with
      | (t2, r) => (t ++ t2, r)

theorem runCalls_noFail (cs : List PlatformCall) :
    runCalls noFail cs = (cs, none) := by
  induction cs with
  | nil => rfl
  | cons c rest ih => simp [runCalls, noFail, ih]

/-- A call list all of whose members the oracle leaves alone runs to
completion. -/
theorem runCalls_benign {oracle : Oracle} {cs : List PlatformCall}
    (h : ∀ c ∈ cs, oracle c = none) : runCalls oracle cs = (cs, none) := by
  induction cs with
  | nil => rfl
  | cons c rest ih =>
    simp only [runCalls, h c (by simp)]
    rw [ih (fun x hx => h x (by simp [hx]))]

/-- Run of an appended call list when the first part succeeds. -/
theorem runCalls_append {oracle : Oracle} {l1 l2 : List PlatformCall}
    (h : ∀ c ∈ l1, oracle c = none) :
    runCalls oracle (l1 ++ l2) =
      ((l1 ++ (runCalls oracle l2).1), (runCalls oracle l2).2) := by
  induction l1 with
  | nil => simp
  | cons c rest ih =>
    simp only [List.cons_append, runCalls, h c (by simp), List.append_eq]
    rw [ih (fun x hx => h x (by simp [hx]))]

/-- The first failing call aborts the remainder: the attempted calls are
exactly the benign prefix followed by the failing call, and the error is
returned as-is. -/
theorem runCalls_fail {oracle : Oracle} {l1 l2 : List PlatformCall}
    {c : PlatformCall} {e : String}
    (h1 : ∀ x ∈ l1, oracle x = none) (hc : oracle c = some e) :
    runCalls oracle (l1 ++ c :: l2) = (l1 ++ [c], some e) := by
  rw [runCalls_append h1]
  simp [runCalls, hc]

/-! ### Label parsing

Migration script, lines 19–28: the interactive label loop.  Each entered
line is split on `":"`; `name, color = label.split(":")` raises
`ValueError` unless the split has exactly two fields, in which case the
`except` branch prints an invalid-format message and the loop continues.

Web app, lines 54–58: each comma-separated field containing a `':'` is
split (an uncaught `ValueError` if the split is not binary); fields without
a colon are silently skipped. -/

/-- `name, color = label.split(":")` followed by
`{"name": name.strip(), "color": color.strip()}`; `none` = `ValueError`. -/
def parseLabelCLI (label : String) : Option (String × String) :=
  match pySplit ':' label with
  | [name, color] => some (pyStrip name, pyStrip color)
  | _ => none

/-- The message printed by the `except ValueError` branch of the CLI loop. -/
def invalidLabelMsg : String :=
  "Invalid format. Please use name:color (e.g., bug:d73a4a)"

/-- The interactive label loop on the successive user entries: stops at the
first blank entry, collects parsed labels, and collects the invalid-format
messages printed for rejected entries (the loop continues after each). -/
def cliCollectLabels : List String → List (String × String) × List String
  | [] => ([], [])
  | l :: rest =>
    if l = "" then ([], [])
    else
      match parseLabelCLI l with
      | some nc =>
        match cliCollectLabels rest with
        | (ls, msgs) => (nc :: ls, msgs)
      | none =>
        match cliCollectLabels rest with
        | (ls, msgs) => (ls, invalidLabelMsg :: msgs)

/-- Label parsing in the web app, over the comma-split fields.  `none` means
an uncaught `ValueError` (a field with more than one colon), which kills
the request before any platform call. -/
def webParseLabels : List String → Option (List (String × String))
  | [] => some []
  | l :: rest =>
    if (':' ∈ l.toList) then
      match pySplit ':' l with
      | [name, color] =>
        match webParseLabels rest with
        | some ls => some ((pyStrip name, pyStrip color) :: ls)
        | none => none
      | _ => none
    else webParseLabels rest

/-! ### The migration script (`src/ghec-ghc-migration.py`)

The interactive inputs, after the per-line processing the script applies at
collection time (`split`, `strip`, `lower`), and the sequence of platform
calls the script then issues. -/

/-- The raw interactive answers of one run of the migration script.
`labelInputs` is the list of lines typed at the label loop; `slackWebhook`
is the `SLACK_WEBHOOK_URL` environment variable. -/
structure MigrationConfig where
  orgName : String
  repoName : String
  description : String
  topicsRaw : String
  defaultBranch : String
  teamSlugsRaw : String
  labelInputs : List String
  add_cloudbuild : Bool
  add_cloudbuild_yaml : Bool
  categoryRaw : String
  regionRaw : String
  codeownersRaw : String
  add_codeowners_file : Bool
  add_license : Bool
  add_readme : Bool
  add_issue_template : Bool
  add_pr_template : Bool
  add_security_md : Bool
  add_contributing_md : Bool
  add_tekton : Bool
  add_gcp_secret : Bool
  add_vault_secret : Bool
  slackWebhook : Option String
  gcpProject : String
  gcpSecretId : String
  gcpSecretValue : String
  vaultPath : String
  vaultKey : String
  vaultValue : String

/-- `TOPICS = input(...).split(",")`. -/
def MigrationConfig.topics (cfg : MigrationConfig) : List String :=
  pySplit ',' cfg.topicsRaw

/-- `TEAM_SLUGS = input(...).split(",")`. -/
def MigrationConfig.teamSlugs (cfg : MigrationConfig) : List String :=
  pySplit ',' cfg.teamSlugsRaw

/-- `category = input(...).strip().lower()`. -/
def MigrationConfig.category (cfg : MigrationConfig) : String :=
  pyLower (pyStrip cfg.categoryRaw)

/-- `region = input(...).strip().lower()`. -/
def MigrationConfig.region (cfg : MigrationConfig) : String :=
  pyLower (pyStrip cfg.regionRaw)

/-- `codeowners = input(...).split(",")`. -/
def MigrationConfig.codeowners (cfg : MigrationConfig) : List String :=
  pySplit ',' cfg.codeownersRaw

/-- The `LABELS` collected by the interactive loop. -/
def MigrationConfig.labels (cfg : MigrationConfig) :
    List (String × String) :=
  (cliCollectLabels cfg.labelInputs).1

def CLOUDBUILD_WEBHOOK_URL : String :=
  "https://cloudbuild.googleapis.com/github/webhook"

/-- `g.get_organization(ORG_NAME)`. -/
def authCalls (cfg : MigrationConfig) : List PlatformCall :=
  [.getOrganization cfg.orgName]

/-- `org.create_repo(REPO_NAME, private=True, auto_init=True,
description=DESCRIPTION, default_branch=DEFAULT_BRANCH)`. -/
def createRepoCalls (cfg : MigrationConfig) : List PlatformCall :=
  [.createRepo cfg.repoName true true (some cfg.description)
    (some cfg.defaultBranch)]

/-- `if TOPICS and any(t.strip() for t in TOPICS):
repo.replace_topics([t.strip() for t in TOPICS if t.strip()])`. -/
def topicsCalls (cfg : MigrationConfig) : List PlatformCall :=
  if cfg.topics ≠ [] ∧ cfg.topics.any (fun t => pyStrip t ≠ "") then
    [.replaceTopics ((cfg.topics.map pyStrip).filter (fun t => t ≠ ""))]
  else []

/-- `for label in LABELS: repo.create_label(...)`. -/
def labelCalls (cfg : MigrationConfig) : List PlatformCall :=
  cfg.labels.map fun l => .createLabel l.1 l.2

/-- `if add_cloudbuild: repo.create_hook(...)`. -/
def hookCalls (cfg : MigrationConfig) : List PlatformCall :=
  if cfg.add_cloudbuild then
    [.createHook "web" CLOUDBUILD_WEBHOOK_URL "json" ["push", "pull_request"]
      true]
  else []

/-- The sox/banking branch body: for each code owner,
`g.get_user(owner.strip())` then
`repo.add_to_collaborators(user, permission="admin")`. -/
def ownerCalls (codeowners : List String) : List PlatformCall :=
  codeowners.flatMap fun o =>
    [.getUser (pyStrip o), .addCollaborator (pyStrip o) "admin"]

/-- The normal-category branch body: for each team slug,
`org.get_team_by_slug(...)`, `team.add_to_repos(repo)`,
`team.set_repo_permission(repo, "push")`. -/
def teamCalls (teamSlugs : List String) : List PlatformCall :=
  teamSlugs.flatMap fun t =>
    [.getTeamBySlug (pyStrip t), .teamAddToRepos (pyStrip t),
      .teamSetRepoPermission (pyStrip t) "push"]

/-- `if category in ["sox", "banking"]: ... else: ...` (lines 77–89). -/
def collaboratorCalls (cfg : MigrationConfig) : List PlatformCall :=
  if cfg.category ∈ ["sox", "banking"] then ownerCalls cfg.codeowners
  else teamCalls cfg.teamSlugs

/-- The early `branch.edit_protection` keyword arguments (lines 95–101). -/
def earlyProtection : Protection :=
  { required_approving_review_count := 1
    enforce_admins := true
    dismiss_stale_reviews := true
    require_code_owner_reviews := true
    required_status_checks := none }

/-- `branch = repo.get_branch(DEFAULT_BRANCH)` then the early
`branch.edit_protection(...)`. -/
def earlyProtectionCalls (cfg : MigrationConfig) : List PlatformCall :=
  [.getBranch cfg.defaultBranch, .editProtection earlyProtection]

def cloudbuildContent : String :=
  "steps:\n  - name: \x27gcr.io/cloud-builders/git\x27\n    args: [\x27clone\x27, \x27https://github.com/$REPO_NAME\x27]\n  - name: \x27gcr.io/cloud-builders/docker\x27\n    args: [\x27build\x27, \x27-t\x27, \x27gcr.io/$PROJECT_ID/$REPO_NAME:$COMMIT_SHA\x27, \x27.\x27]\n  - name: \x27gcr.io/cloud-builders/docker\x27\n    args: [\x27push\x27, \x27gcr.io/$PROJECT_ID/$REPO_NAME:$COMMIT_SHA\x27]\n\nimages:\n  - \x27gcr.io/$PROJECT_ID/$REPO_NAME:$COMMIT_SHA\x27\n"

/-- `if add_cloudbuild_yaml: ... repo.create_file(path="cloudbuild.yaml", ...)`. -/
def cloudbuildYamlCalls (cfg : MigrationConfig) : List PlatformCall :=
  if cfg.add_cloudbuild_yaml then
    [.createFile "cloudbuild.yaml" "Add default cloudbuild.yaml"
      cloudbuildContent cfg.defaultBranch]
  else []

/-- `codeowners_content = "* " + " ".join([f"@{owner.strip()}" for owner in
codeowners if owner.strip()])`. -/
def codeownersContent (cfg : MigrationConfig) : String :=
  "* " ++ String.intercalate " "
    ((cfg.codeowners.filter (fun o => pyStrip o ≠ "")).map
      (fun o => "@" ++ pyStrip o))

/-- `if add_codeowners_file and codeowners: ...
repo.create_file(path=".github/CODEOWNERS", ...)`. -/
def codeownersFileCalls (cfg : MigrationConfig) : List PlatformCall :=
  if cfg.add_codeowners_file ∧ cfg.codeowners ≠ [] then
    [.createFile ".github/CODEOWNERS" "Add CODEOWNERS file"
      (codeownersContent cfg) cfg.defaultBranch]
  else []

def licenseContent : String :=
  "MIT License\n\nCopyright (c) 2025 <Your Company>\n\nPermission is hereby granted, free of charge, to any person obtaining a copy..."

/-- `if add_license: ... repo.create_file(path="LICENSE", ...)`. -/
def licenseCalls (cfg : MigrationConfig) : List PlatformCall :=
  if cfg.add_license then
    [.createFile "LICENSE" "Add LICENSE file" licenseContent
      cfg.defaultBranch]
  else []

/-- `readme_content = f"# {REPO_NAME}\n\n{DESCRIPTION}\n\n## Region\n{region}\n\n## Category\n{category}\n"`. -/
def readmeContent (cfg : MigrationConfig) : String :=
  "# " ++ cfg.repoName ++ "\n\n" ++ cfg.description ++ "\n\n## Region\n"
    ++ cfg.region ++ "\n\n## Category\n" ++ cfg.category ++ "\n"

/-- `if add_readme: ... repo.create_file(path="README.md", ...)`. -/
def readmeCalls (cfg : MigrationConfig) : List PlatformCall :=
  if cfg.add_readme then
    [.createFile "README.md" "Add README.md file" (readmeContent cfg)
      cfg.defaultBranch]
  else []

def issueTemplateContent : String :=
  "---\nname: Bug report\nabout: Create a report to help us improve\ntitle: \x27\x27\nlabels: bug\nassignees: \x27\x27\n\n---\n\n**Describe the bug**\nA clear and concise description of what the bug is.\n\n**To Reproduce**\nSteps to reproduce the behavior:\n1. Go to \x27...\x27"

/-- `if add_issue_template: ...
repo.create_file(path=".github/ISSUE_TEMPLATE/bug_report.md", ...)`. -/
def issueTemplateCalls (cfg : MigrationConfig) : List PlatformCall :=
  if cfg.add_issue_template then
    [.createFile ".github/ISSUE_TEMPLATE/bug_report.md"
      "Add default bug report issue template" issueTemplateContent
      cfg.defaultBranch]
  else []

def prTemplateContent : String :=
  "# Pull Request\n\n## Description\nPlease include a summary of the change and which issue is fixed.\n\n## Type of change\n- [ ] Bug fix\n- [ ] New feature\n- [ ] Breaking change\n- [ ] Documentation update\n\n## Checklist\n- [ ] My code follows the style guidelines\n- [ ] I have performed a self-review\n- [ ] I have commented my code\n- [ ] I have made corresponding changes to the documentation\n- [ ] My changes generate no new warnings\n"

/-- `if add_pr_template: ...
repo.create_file(path=".github/PULL_REQUEST_TEMPLATE.md", ...)`. -/
def prTemplateCalls (cfg : MigrationConfig) : List PlatformCall :=
  if cfg.add_pr_template then
    [.createFile ".github/PULL_REQUEST_TEMPLATE.md"
      "Add default pull request template" prTemplateContent
      cfg.defaultBranch]
  else []

def securityContent : String :=
  "# Security Policy\n\n## Reporting a Vulnerability\nPlease report security issues to security@example.com.\n"

/-- `if add_security_md: ... repo.create_file(path=".github/SECURITY.md", ...)`. -/
def securityCalls (cfg : MigrationConfig) : List PlatformCall :=
  if cfg.add_security_md then
    [.createFile ".github/SECURITY.md" "Add SECURITY.md file"
      securityContent cfg.defaultBranch]
  else []

def contributingContent : String :=
  "# Contributing\n\nThank you for considering contributing!\n\n## How to contribute\n- Fork the repo\n- Create a feature branch\n- Submit a pull request\n"

/-- `if add_contributing_md: ...
repo.create_file(path=".github/CONTRIBUTING.md", ...)`. -/
def contributingCalls (cfg : MigrationConfig) : List PlatformCall :=
  if cfg.add_contributing_md then
    [.createFile ".github/CONTRIBUTING.md" "Add CONTRIBUTING.md file"
      contributingContent cfg.defaultBranch]
  else []

/-- `if slack_webhook: requests.post(slack_webhook, json={"text": ...})` —
note: NOT wrapped in `try/except` in the source (lines 251–253). -/
def slackCalls (cfg : MigrationConfig) : List PlatformCall :=
  match cfg.slackWebhook with
  | some url =>
    [.slackPost url
      ("Repo " ++ cfg.repoName ++ " created in " ++ cfg.orgName ++ ".")]
  | none => []

/-- The audit-log append (lines 256–258), recording repo, org, category,
region and code owners (the timestamp is wall-clock and not modelled). -/
def auditCalls (cfg : MigrationConfig) : List PlatformCall :=
  [.auditAppend cfg.repoName cfg.orgName cfg.category cfg.region
    cfg.codeowners]

/-- The advanced `branch.edit_protection` keyword arguments (lines 261–268). -/
def advancedProtection : Protection :=
  { required_approving_review_count := 2
    enforce_admins := true
    dismiss_stale_reviews := true
    require_code_owner_reviews := true
    required_status_checks := some (true, ["ci/test", "lint"]) }

/-- The unconditional advanced `branch.edit_protection(...)` call. -/
def advancedProtectionCalls : List PlatformCall :=
  [.editProtection advancedProtection]

def tektonContent : String :=
  "apiVersion: tekton.dev/v1beta1\nkind: Pipeline\nmetadata:\n  name: sample-pipeline\nspec:\n  tasks:\n    - name: echo\n      taskSpec:\n        steps:\n          - name: echo\n            image: ubuntu\n            script: |\n              echo Hello Tekton!\n"

/-- `if add_tekton: ... repo.create_file(path="tekton.yaml", ...)`. -/
def tektonCalls (cfg : MigrationConfig) : List PlatformCall :=
  if cfg.add_tekton then
    [.createFile "tekton.yaml" "Add Tekton pipeline template" tektonContent
      cfg.defaultBranch]
  else []

/-- All the straight-line (unguarded) calls of the script, in source order:
lines 40–290.  Any exception here propagates and aborts the run. -/
def preSlackCalls (cfg : MigrationConfig) : List PlatformCall :=
  authCalls cfg ++ createRepoCalls cfg ++ topicsCalls cfg ++ labelCalls cfg
    ++ hookCalls cfg ++ collaboratorCalls cfg ++ earlyProtectionCalls cfg
    ++ cloudbuildYamlCalls cfg ++ codeownersFileCalls cfg
    ++ licenseCalls cfg ++ readmeCalls cfg ++ issueTemplateCalls cfg
    ++ prTemplateCalls cfg ++ securityCalls cfg ++ contributingCalls cfg

/-- The calls after the audit append: the advanced protection edit and the
optional Tekton file commit. -/
def postAuditCalls (cfg : MigrationConfig) : List PlatformCall :=
  advancedProtectionCalls ++ tektonCalls cfg

def migrationMainCalls (cfg : MigrationConfig) : List PlatformCall :=
  preSlackCalls cfg ++ (slackCalls cfg ++ (auditCalls cfg
    ++ postAuditCalls cfg))

/-- The GCP Secret Manager block (lines 293–317), inside `try/except`. -/
def gcpSegs (cfg : MigrationConfig) : List Seg :=
  if cfg.add_gcp_secret then
    [.guarded
      [.gcpCreateSecret cfg.gcpProject cfg.gcpSecretId,
        .gcpAddSecretVersion cfg.gcpSecretValue]
      "GCP Secret Manager error: "]
  else []

/-- The Vault block (lines 320–336), inside `try/except`. -/
def vaultSegs (cfg : MigrationConfig) : List Seg :=
  if cfg.add_vault_secret then
    [.guarded [.vaultWrite cfg.vaultPath cfg.vaultKey cfg.vaultValue]
      "Vault error: "]
  else []

/-- The whole migration script as segments: everything up to the Tekton
file is unguarded, then the two guarded secret-store blocks. -/
def migrationSegs (cfg : MigrationConfig) : List Seg :=
  Seg.plain (migrationMainCalls cfg) :: (gcpSegs cfg ++ vaultSegs cfg)

/-- One run of the migration script under a failure oracle. -/
def migrationRun (cfg : MigrationConfig) (oracle : Oracle) :
    List PlatformCall × Option String :=
  runSegs oracle (migrationSegs cfg)

/-- The calls of a failure-free run, in order. -/
def migrationTrace (cfg : MigrationConfig) : List PlatformCall :=
  (migrationRun cfg noFail).1

/-- The GCP calls of a failure-free run. -/
def gcpHappyCalls (cfg : MigrationConfig) : List PlatformCall :=
  if cfg.add_gcp_secret then
    [.gcpCreateSecret cfg.gcpProject cfg.gcpSecretId,
      .gcpAddSecretVersion cfg.gcpSecretValue]
  else []

/-- The Vault calls of a failure-free run. -/
def vaultHappyCalls (cfg : MigrationConfig) : List PlatformCall :=
  if cfg.add_vault_secret then
    [.vaultWrite cfg.vaultPath cfg.vaultKey cfg.vaultValue]
  else []

theorem migrationTrace_eq (cfg : MigrationConfig) :
    migrationTrace cfg =
      migrationMainCalls cfg ++ gcpHappyCalls cfg ++ vaultHappyCalls cfg := by
  cases hg : cfg.add_gcp_secret <;> cases hv : cfg.add_vault_secret <;>
    simp [migrationTrace, migrationRun, migrationSegs, gcpSegs, vaultSegs,
      runSegs, runSeg, runCalls_noFail, gcpHappyCalls, vaultHappyCalls,
      hg, hv]

/-! ### The web app (`src/repo-creator-web/app.py`) -/

/-- The arguments of `create_github_repo(org_name, repo_name, team_slugs,
labels, add_cloudbuild, category, region, codeowners)`. -/
structure WebRequest where
  org_name : String
  repo_name : String
  team_slugs : List String
  labels : List (String × String)
  add_cloudbuild : Bool
  category : String
  region : String
  codeowners : List String

/-- The platform calls `create_github_repo` issues, in source order
(lines 11–46): get organization, create repo (private, auto-init, no
description or default-branch argument), labels, optional webhook,
category-routed collaborators, then branch protection on `"main"`. -/
def webCreateCalls (r : WebRequest) : List PlatformCall :=
  [.getOrganization r.org_name, .createRepo r.repo_name true true none none]
    ++ (r.labels.map fun l => .createLabel l.1 l.2)
    ++ (if r.add_cloudbuild then
          [.createHook "web" CLOUDBUILD_WEBHOOK_URL "json"
            ["push", "pull_request"] true]
        else [])
    ++ (if r.category ∈ ["sox", "banking"] then ownerCalls r.codeowners
        else teamCalls r.team_slugs)
    ++ [.getBranch "main", .editProtection earlyProtection]

/-- `create_github_repo` under a failure oracle: the calls attempted and
either `.ok true` (the function returns `True`) or the propagated
exception. -/
def create_github_repo (r : WebRequest) (oracle : Oracle) :
    List PlatformCall × Except String Bool :=
  match runCalls oracle (webCreateCalls r) with
  | (t, none) => (t, .ok true)
  | (t, some e) => (t, .error e)

/-- The POST form fields read by `index` (lines 50–62). -/
structure WebForm where
  org_name : String
  repo_name : String
  team_slugs : String
  labels : String
  add_cloudbuild : Bool
  category : String
  region : String
  codeowners : String

/-- The `index` POST handler: parse the form, call `create_github_repo`
inside `try/except`, and flash either the success or the error message.
`none` models an uncaught `ValueError` from label parsing (which happens
before the `try` block and kills the request with no flash). -/
def webReqOf (form : WebForm) (labels : List (String × String)) :
    WebRequest :=
  { org_name := form.org_name
    repo_name := form.repo_name
    team_slugs := pySplit ',' form.team_slugs
    labels := labels
    add_cloudbuild := form.add_cloudbuild
    category := form.category
    region := form.region
    codeowners :=
      if form.codeowners ≠ "" then pySplit ',' form.codeowners else [] }

def webIndex (form : WebForm) (oracle : Oracle) :
    Option (List PlatformCall × String) :=
  match webParseLabels (pySplit ',' form.labels) with
  | none => none
  | some labels =>
    match create_github_repo (webReqOf form labels) oracle with
    | (t, .ok _) =>
      some (t, "Repository \x27" ++ form.repo_name
        ++ "\x27 created and configured!")
    | (t, .error e) => some (t, "Error: " ++ e)

/-! ### Trace observations -/

/-- Projection of a call to its `add_to_collaborators` data. -/
def collabProj : PlatformCall → Option (String × String)
  | .addCollaborator u p => some (u, p)
  | _ => none

/-- Projection of a call to its `team.add_to_repos` slug. -/
def teamRepoProj : PlatformCall → Option String
  | .teamAddToRepos s => some s
  | _ => none

/-- Projection of a call to its `team.set_repo_permission` data. -/
def teamPermProj : PlatformCall → Option (String × String)
  | .teamSetRepoPermission s p => some (s, p)
  | _ => none

/-- Projection of a call to its `edit_protection` payload. -/
def protProj : PlatformCall → Option Protection
  | .editProtection p => some p
  | _ => none

/-- Projection of a call to its audit-log data. -/
def auditProj :
    PlatformCall → Option (String × String × String × String × List String)
  | .auditAppend r o cat reg owners => some (r, o, cat, reg, owners)
  | _ => none

/-- Projection of a call to the content of a `create_file` at path `p`. -/
def fileProj (p : String) : PlatformCall → Option String
  | .createFile path _ content _ => if path = p then some content else none
  | _ => none

/-- The `(login, permission)` pairs of the `add_to_collaborators` calls of
a trace (individual collaborators). -/
def collabAdds (t : List PlatformCall) : List (String × String) :=
  t.filterMap collabProj

/-- The team slugs of the `team.add_to_repos` calls of a trace. -/
def teamRepoAdds (t : List PlatformCall) : List String :=
  t.filterMap teamRepoProj

/-- The `(slug, permission)` pairs of the `team.set_repo_permission`
calls of a trace. -/
def teamPerms (t : List PlatformCall) : List (String × String) :=
  t.filterMap teamPermProj

/-- The successive `edit_protection` payloads of a trace. -/
def editProtections (t : List PlatformCall) : List Protection :=
  t.filterMap protProj

/-- The audit-log appends of a trace. -/
def audits (t : List PlatformCall) :
    List (String × String × String × String × List String) :=
  t.filterMap auditProj

/-- The contents of the file-commit (`create_file`) calls of a trace whose
path is `p`. -/
def fileCommits (t : List PlatformCall) (p : String) : List String :=
  t.filterMap (fileProj p)

theorem filterMap_ite_nil {α β : Type} (f : α → Option β) (c : Prop)
    [Decidable c] (l : List α) :
    List.filterMap f (if c then l else []) =
      if c then l.filterMap f else [] := by
  split <;> rfl

theorem filterMap_flatMap {α β γ : Type} (f : β → Option γ)
    (g : α → List β) (l : List α) :
    (l.flatMap g).filterMap f = l.flatMap fun x => (g x).filterMap f := by
  induction l with
  | nil => rfl
  | cons x rest ih => simp [ih]

theorem flatMap_singleton_fun {α β : Type} (f : α → β) (l : List α) :
    (l.flatMap fun x => [f x]) = l.map f := by
  induction l with
  | nil => rfl
  | cons x rest ih => simp [ih]

theorem flatMap_nil_fun {α β : Type} (l : List α) :
    (l.flatMap fun _ => ([] : List β)) = [] := by
  induction l with
  | nil => rfl
  | cons x rest ih => simp [ih]

/-- Generic shape of the contribution of the label stage to an observation that
ignores `create_label` calls. -/
theorem filterMap_labelList {β : Type} (f : PlatformCall → Option β)
    (h : ∀ n c, f (.createLabel n c) = none) (l : List (String × String)) :
    (l.map fun p => PlatformCall.createLabel p.1 p.2).filterMap f = [] := by
  induction l with
  | nil => rfl
  | cons x rest ih => simp [h, ih]

/-- Generic shape of the contribution of the Slack stage to an observation that
ignores `slackPost` calls. -/
theorem filterMap_slackCalls {β : Type} (f : PlatformCall → Option β)
    (h : ∀ u t, f (.slackPost u t) = none) (cfg : MigrationConfig) :
    (slackCalls cfg).filterMap f = [] := by
  cases c : cfg.slackWebhook <;> simp [slackCalls, c, h]

theorem collabAdds_migrationTrace (cfg : MigrationConfig) :
    collabAdds (migrationTrace cfg) =
      if cfg.category ∈ ["sox", "banking"] then
        cfg.codeowners.map fun o => (pyStrip o, "admin")
      else [] := by
  simp only [migrationTrace_eq, collabAdds, migrationMainCalls,
    preSlackCalls, postAuditCalls, authCalls, createRepoCalls, topicsCalls,
    labelCalls, hookCalls, collaboratorCalls, earlyProtectionCalls,
    cloudbuildYamlCalls, codeownersFileCalls, licenseCalls, readmeCalls,
    issueTemplateCalls, prTemplateCalls, securityCalls, contributingCalls,
    auditCalls, advancedProtectionCalls, tektonCalls, gcpHappyCalls,
    vaultHappyCalls, ownerCalls, teamCalls, List.filterMap_append,
    filterMap_ite_nil, filterMap_flatMap,
    filterMap_slackCalls collabProj (fun _ _ => rfl),
    filterMap_labelList collabProj (fun _ _ => rfl)]
  simp [collabProj, ite_self, filterMap_flatMap, flatMap_singleton_fun,
    flatMap_nil_fun, apply_ite (List.filterMap collabProj)]

theorem teamRepoAdds_migrationTrace (cfg : MigrationConfig) :
    teamRepoAdds (migrationTrace cfg) =
      if cfg.category ∈ ["sox", "banking"] then []
      else cfg.teamSlugs.map pyStrip := by
  simp only [migrationTrace_eq, teamRepoAdds, migrationMainCalls,
    preSlackCalls, postAuditCalls, authCalls, createRepoCalls, topicsCalls,
    labelCalls, hookCalls, collaboratorCalls, earlyProtectionCalls,
    cloudbuildYamlCalls, codeownersFileCalls, licenseCalls, readmeCalls,
    issueTemplateCalls, prTemplateCalls, securityCalls, contributingCalls,
    auditCalls, advancedProtectionCalls, tektonCalls, gcpHappyCalls,
    vaultHappyCalls, ownerCalls, teamCalls, List.filterMap_append,
    filterMap_ite_nil, filterMap_flatMap,
    filterMap_slackCalls teamRepoProj (fun _ _ => rfl),
    filterMap_labelList teamRepoProj (fun _ _ => rfl)]
  simp [teamRepoProj, ite_self, filterMap_flatMap, flatMap_singleton_fun,
    flatMap_nil_fun, apply_ite (List.filterMap teamRepoProj)]

theorem teamPerms_migrationTrace (cfg : MigrationConfig) :
    teamPerms (migrationTrace cfg) =
      if cfg.category ∈ ["sox", "banking"] then []
      else cfg.teamSlugs.map fun t => (pyStrip t, "push") := by
  simp only [migrationTrace_eq, teamPerms, migrationMainCalls,
    preSlackCalls, postAuditCalls, authCalls, createRepoCalls, topicsCalls,
    labelCalls, hookCalls, collaboratorCalls, earlyProtectionCalls,
    cloudbuildYamlCalls, codeownersFileCalls, licenseCalls, readmeCalls,
    issueTemplateCalls, prTemplateCalls, securityCalls, contributingCalls,
    auditCalls, advancedProtectionCalls, tektonCalls, gcpHappyCalls,
    vaultHappyCalls, ownerCalls, teamCalls, List.filterMap_append,
    filterMap_ite_nil, filterMap_flatMap,
    filterMap_slackCalls teamPermProj (fun _ _ => rfl),
    filterMap_labelList teamPermProj (fun _ _ => rfl)]
  simp [teamPermProj, ite_self, filterMap_flatMap, flatMap_singleton_fun,
    flatMap_nil_fun, apply_ite (List.filterMap teamPermProj)]

/-- The `edit_protection` calls of both scripts, in order: the early one with a
required review count of 1, then (migration script only, unconditionally)
the advanced one with a required review count of 2. -/
theorem editProtections_migrationTrace (cfg : MigrationConfig) :
    editProtections (migrationTrace cfg) =
      [earlyProtection, advancedProtection] := by
  simp only [migrationTrace_eq, editProtections, migrationMainCalls,
    preSlackCalls, postAuditCalls, authCalls, createRepoCalls, topicsCalls,
    labelCalls, hookCalls, collaboratorCalls, earlyProtectionCalls,
    cloudbuildYamlCalls, codeownersFileCalls, licenseCalls, readmeCalls,
    issueTemplateCalls, prTemplateCalls, securityCalls, contributingCalls,
    auditCalls, advancedProtectionCalls, tektonCalls, gcpHappyCalls,
    vaultHappyCalls, ownerCalls, teamCalls, List.filterMap_append,
    filterMap_ite_nil, filterMap_flatMap,
    filterMap_slackCalls protProj (fun _ _ => rfl),
    filterMap_labelList protProj (fun _ _ => rfl)]
  simp [protProj, ite_self, filterMap_flatMap, flatMap_nil_fun,
    apply_ite (List.filterMap protProj)]

theorem audits_migrationTrace (cfg : MigrationConfig) :
    audits (migrationTrace cfg) =
      [(cfg.repoName, cfg.orgName, cfg.category, cfg.region,
        cfg.codeowners)] := by
  simp only [migrationTrace_eq, audits, migrationMainCalls,
    preSlackCalls, postAuditCalls, authCalls, createRepoCalls, topicsCalls,
    labelCalls, hookCalls, collaboratorCalls, earlyProtectionCalls,
    cloudbuildYamlCalls, codeownersFileCalls, licenseCalls, readmeCalls,
    issueTemplateCalls, prTemplateCalls, securityCalls, contributingCalls,
    auditCalls, advancedProtectionCalls, tektonCalls, gcpHappyCalls,
    vaultHappyCalls, ownerCalls, teamCalls, List.filterMap_append,
    filterMap_ite_nil, filterMap_flatMap,
    filterMap_slackCalls auditProj (fun _ _ => rfl),
    filterMap_labelList auditProj (fun _ _ => rfl)]
  simp [auditProj, ite_self, filterMap_flatMap, flatMap_nil_fun,
    apply_ite (List.filterMap auditProj)]

theorem collabAdds_webCreateCalls (r : WebRequest) :
    collabAdds (webCreateCalls r) =
      if r.category ∈ ["sox", "banking"] then
        r.codeowners.map fun o => (pyStrip o, "admin")
      else [] := by
  simp only [webCreateCalls, collabAdds, ownerCalls, teamCalls,
    List.filterMap_append, filterMap_ite_nil, filterMap_flatMap,
    filterMap_labelList collabProj (fun _ _ => rfl)]
  simp [collabProj, ite_self, filterMap_flatMap, flatMap_singleton_fun,
    flatMap_nil_fun, apply_ite (List.filterMap collabProj)]

theorem teamRepoAdds_webCreateCalls (r : WebRequest) :
    teamRepoAdds (webCreateCalls r) =
      if r.category ∈ ["sox", "banking"] then []
      else r.team_slugs.map pyStrip := by
  simp only [webCreateCalls, teamRepoAdds, ownerCalls, teamCalls,
    List.filterMap_append, filterMap_ite_nil, filterMap_flatMap,
    filterMap_labelList teamRepoProj (fun _ _ => rfl)]
  simp [teamRepoProj, ite_self, filterMap_flatMap, flatMap_singleton_fun,
    flatMap_nil_fun, apply_ite (List.filterMap teamRepoProj)]

theorem teamPerms_webCreateCalls (r : WebRequest) :
    teamPerms (webCreateCalls r) =
      if r.category ∈ ["sox", "banking"] then []
      else r.team_slugs.map fun t => (pyStrip t, "push") := by
  simp only [webCreateCalls, teamPerms, ownerCalls, teamCalls,
    List.filterMap_append, filterMap_ite_nil, filterMap_flatMap,
    filterMap_labelList teamPermProj (fun _ _ => rfl)]
  simp [teamPermProj, ite_self, filterMap_flatMap, flatMap_singleton_fun,
    flatMap_nil_fun, apply_ite (List.filterMap teamPermProj)]

theorem editProtections_webCreateCalls (r : WebRequest) :
    editProtections (webCreateCalls r) = [earlyProtection] := by
  simp only [webCreateCalls, editProtections, ownerCalls, teamCalls,
    List.filterMap_append, filterMap_ite_nil, filterMap_flatMap,
    filterMap_labelList protProj (fun _ _ => rfl)]
  simp [protProj, ite_self, filterMap_flatMap, flatMap_nil_fun,
    apply_ite (List.filterMap protProj)]

theorem fileCommits_license (cfg : MigrationConfig) :
    fileCommits (migrationTrace cfg) "LICENSE" =
      if cfg.add_license then [licenseContent] else [] := by
  simp only [migrationTrace_eq, fileCommits, migrationMainCalls,
    preSlackCalls, postAuditCalls, authCalls, createRepoCalls, topicsCalls,
    labelCalls, hookCalls, collaboratorCalls, earlyProtectionCalls,
    cloudbuildYamlCalls, codeownersFileCalls, licenseCalls, readmeCalls,
    issueTemplateCalls, prTemplateCalls, securityCalls, contributingCalls,
    auditCalls, advancedProtectionCalls, tektonCalls, gcpHappyCalls,
    vaultHappyCalls, ownerCalls, teamCalls, List.filterMap_append,
    filterMap_ite_nil, filterMap_flatMap,
    filterMap_slackCalls (fileProj "LICENSE") (fun _ _ => rfl),
    filterMap_labelList (fileProj "LICENSE") (fun _ _ => rfl)]
  simp [fileProj, ite_self, filterMap_flatMap, flatMap_nil_fun,
    apply_ite (List.filterMap (fileProj "LICENSE"))]

theorem fileCommits_cloudbuild (cfg : MigrationConfig) :
    fileCommits (migrationTrace cfg) "cloudbuild.yaml" =
      if cfg.add_cloudbuild_yaml then [cloudbuildContent] else [] := by
  simp only [migrationTrace_eq, fileCommits, migrationMainCalls,
    preSlackCalls, postAuditCalls, authCalls, createRepoCalls, topicsCalls,
    labelCalls, hookCalls, collaboratorCalls, earlyProtectionCalls,
    cloudbuildYamlCalls, codeownersFileCalls, licenseCalls, readmeCalls,
    issueTemplateCalls, prTemplateCalls, securityCalls, contributingCalls,
    auditCalls, advancedProtectionCalls, tektonCalls, gcpHappyCalls,
    vaultHappyCalls, ownerCalls, teamCalls, List.filterMap_append,
    filterMap_ite_nil, filterMap_flatMap,
    filterMap_slackCalls (fileProj "cloudbuild.yaml") (fun _ _ => rfl),
    filterMap_labelList (fileProj "cloudbuild.yaml") (fun _ _ => rfl)]
  simp [fileProj, ite_self, filterMap_flatMap, flatMap_nil_fun,
    apply_ite (List.filterMap (fileProj "cloudbuild.yaml"))]

theorem fileCommits_codeownersFile (cfg : MigrationConfig) :
    fileCommits (migrationTrace cfg) ".github/CODEOWNERS" =
      if cfg.add_codeowners_file then [codeownersContent cfg] else [] := by
  simp only [migrationTrace_eq, fileCommits, migrationMainCalls,
    preSlackCalls, postAuditCalls, authCalls, createRepoCalls, topicsCalls,
    labelCalls, hookCalls, collaboratorCalls, earlyProtectionCalls,
    cloudbuildYamlCalls, codeownersFileCalls, licenseCalls, readmeCalls,
    issueTemplateCalls, prTemplateCalls, securityCalls, contributingCalls,
    auditCalls, advancedProtectionCalls, tektonCalls, gcpHappyCalls,
    vaultHappyCalls, ownerCalls, teamCalls, List.filterMap_append,
    filterMap_ite_nil, filterMap_flatMap,
    filterMap_slackCalls (fileProj ".github/CODEOWNERS") (fun _ _ => rfl),
    filterMap_labelList (fileProj ".github/CODEOWNERS") (fun _ _ => rfl)]
  simp [fileProj, ite_self, filterMap_flatMap, flatMap_nil_fun,
    MigrationConfig.codeowners, pySplit_ne_nil,
    apply_ite (List.filterMap (fileProj ".github/CODEOWNERS"))]

theorem fileCommits_readme (cfg : MigrationConfig) :
    fileCommits (migrationTrace cfg) "README.md" =
      if cfg.add_readme then [readmeContent cfg] else [] := by
  simp only [migrationTrace_eq, fileCommits, migrationMainCalls,
    preSlackCalls, postAuditCalls, authCalls, createRepoCalls, topicsCalls,
    labelCalls, hookCalls, collaboratorCalls, earlyProtectionCalls,
    cloudbuildYamlCalls, codeownersFileCalls, licenseCalls, readmeCalls,
    issueTemplateCalls, prTemplateCalls, securityCalls, contributingCalls,
    auditCalls, advancedProtectionCalls, tektonCalls, gcpHappyCalls,
    vaultHappyCalls, ownerCalls, teamCalls, List.filterMap_append,
    filterMap_ite_nil, filterMap_flatMap,
    filterMap_slackCalls (fileProj "README.md") (fun _ _ => rfl),
    filterMap_labelList (fileProj "README.md") (fun _ _ => rfl)]
  simp [fileProj, ite_self, filterMap_flatMap, flatMap_nil_fun,
    apply_ite (List.filterMap (fileProj "README.md"))]

theorem fileCommits_issueTemplate (cfg : MigrationConfig) :
    fileCommits (migrationTrace cfg) ".github/ISSUE_TEMPLATE/bug_report.md" =
      if cfg.add_issue_template then [issueTemplateContent] else [] := by
  simp only [migrationTrace_eq, fileCommits, migrationMainCalls,
    preSlackCalls, postAuditCalls, authCalls, createRepoCalls, topicsCalls,
    labelCalls, hookCalls, collaboratorCalls, earlyProtectionCalls,
    cloudbuildYamlCalls, codeownersFileCalls, licenseCalls, readmeCalls,
    issueTemplateCalls, prTemplateCalls, securityCalls, contributingCalls,
    auditCalls, advancedProtectionCalls, tektonCalls, gcpHappyCalls,
    vaultHappyCalls, ownerCalls, teamCalls, List.filterMap_append,
    filterMap_ite_nil, filterMap_flatMap,
    filterMap_slackCalls (fileProj ".github/ISSUE_TEMPLATE/bug_report.md")
      (fun _ _ => rfl),
    filterMap_labelList (fileProj ".github/ISSUE_TEMPLATE/bug_report.md")
      (fun _ _ => rfl)]
  simp [fileProj, ite_self, filterMap_flatMap, flatMap_nil_fun,
    apply_ite (List.filterMap (fileProj ".github/ISSUE_TEMPLATE/bug_report.md"))]

theorem fileCommits_prTemplate (cfg : MigrationConfig) :
    fileCommits (migrationTrace cfg) ".github/PULL_REQUEST_TEMPLATE.md" =
      if cfg.add_pr_template then [prTemplateContent] else [] := by
  simp only [migrationTrace_eq, fileCommits, migrationMainCalls,
    preSlackCalls, postAuditCalls, authCalls, createRepoCalls, topicsCalls,
    labelCalls, hookCalls, collaboratorCalls, earlyProtectionCalls,
    cloudbuildYamlCalls, codeownersFileCalls, licenseCalls, readmeCalls,
    issueTemplateCalls, prTemplateCalls, securityCalls, contributingCalls,
    auditCalls, advancedProtectionCalls, tektonCalls, gcpHappyCalls,
    vaultHappyCalls, ownerCalls, teamCalls, List.filterMap_append,
    filterMap_ite_nil, filterMap_flatMap,
    filterMap_slackCalls (fileProj ".github/PULL_REQUEST_TEMPLATE.md")
      (fun _ _ => rfl),
    filterMap_labelList (fileProj ".github/PULL_REQUEST_TEMPLATE.md")
      (fun _ _ => rfl)]
  simp [fileProj, ite_self, filterMap_flatMap, flatMap_nil_fun,
    apply_ite (List.filterMap (fileProj ".github/PULL_REQUEST_TEMPLATE.md"))]

theorem fileCommits_security (cfg : MigrationConfig) :
    fileCommits (migrationTrace cfg) ".github/SECURITY.md" =
      if cfg.add_security_md then [securityContent] else [] := by
  simp only [migrationTrace_eq, fileCommits, migrationMainCalls,
    preSlackCalls, postAuditCalls, authCalls, createRepoCalls, topicsCalls,
    labelCalls, hookCalls, collaboratorCalls, earlyProtectionCalls,
    cloudbuildYamlCalls, codeownersFileCalls, licenseCalls, readmeCalls,
    issueTemplateCalls, prTemplateCalls, securityCalls, contributingCalls,
    auditCalls, advancedProtectionCalls, tektonCalls, gcpHappyCalls,
    vaultHappyCalls, ownerCalls, teamCalls, List.filterMap_append,
    filterMap_ite_nil, filterMap_flatMap,
    filterMap_slackCalls (fileProj ".github/SECURITY.md") (fun _ _ => rfl),
    filterMap_labelList (fileProj ".github/SECURITY.md") (fun _ _ => rfl)]
  simp [fileProj, ite_self, filterMap_flatMap, flatMap_nil_fun,
    apply_ite (List.filterMap (fileProj ".github/SECURITY.md"))]

theorem fileCommits_contributing (cfg : MigrationConfig) :
    fileCommits (migrationTrace cfg) ".github/CONTRIBUTING.md" =
      if cfg.add_contributing_md then [contributingContent] else [] := by
  simp only [migrationTrace_eq, fileCommits, migrationMainCalls,
    preSlackCalls, postAuditCalls, authCalls, createRepoCalls, topicsCalls,
    labelCalls, hookCalls, collaboratorCalls, earlyProtectionCalls,
    cloudbuildYamlCalls, codeownersFileCalls, licenseCalls, readmeCalls,
    issueTemplateCalls, prTemplateCalls, securityCalls, contributingCalls,
    auditCalls, advancedProtectionCalls, tektonCalls, gcpHappyCalls,
    vaultHappyCalls, ownerCalls, teamCalls, List.filterMap_append,
    filterMap_ite_nil, filterMap_flatMap,
    filterMap_slackCalls (fileProj ".github/CONTRIBUTING.md")
      (fun _ _ => rfl),
    filterMap_labelList (fileProj ".github/CONTRIBUTING.md")
      (fun _ _ => rfl)]
  simp [fileProj, ite_self, filterMap_flatMap, flatMap_nil_fun,
    apply_ite (List.filterMap (fileProj ".github/CONTRIBUTING.md"))]

theorem fileCommits_tekton (cfg : MigrationConfig) :
    fileCommits (migrationTrace cfg) "tekton.yaml" =
      if cfg.add_tekton then [tektonContent] else [] := by
  simp only [migrationTrace_eq, fileCommits, migrationMainCalls,
    preSlackCalls, postAuditCalls, authCalls, createRepoCalls, topicsCalls,
    labelCalls, hookCalls, collaboratorCalls, earlyProtectionCalls,
    cloudbuildYamlCalls, codeownersFileCalls, licenseCalls, readmeCalls,
    issueTemplateCalls, prTemplateCalls, securityCalls, contributingCalls,
    auditCalls, advancedProtectionCalls, tektonCalls, gcpHappyCalls,
    vaultHappyCalls, ownerCalls, teamCalls, List.filterMap_append,
    filterMap_ite_nil, filterMap_flatMap,
    filterMap_slackCalls (fileProj "tekton.yaml") (fun _ _ => rfl),
    filterMap_labelList (fileProj "tekton.yaml") (fun _ _ => rfl)]
  simp [fileProj, ite_self, filterMap_flatMap, flatMap_nil_fun,
    apply_ite (List.filterMap (fileProj "tekton.yaml"))]

/-! ### Position of the audit append, and failure behaviour -/

/-- Everything the migration script does before the audit-log append:
lines 40–253 (up to and including the Slack notification). -/
def preAuditTrace (cfg : MigrationConfig) : List PlatformCall :=
  preSlackCalls cfg ++ slackCalls cfg

theorem migrationTrace_decomp (cfg : MigrationConfig) :
    migrationTrace cfg =
      preAuditTrace cfg ++ auditCalls cfg
        ++ (advancedProtectionCalls ++ tektonCalls cfg ++ gcpHappyCalls cfg
          ++ vaultHappyCalls cfg) := by
  simp [migrationTrace_eq, migrationMainCalls, preAuditTrace,
    postAuditCalls, List.append_assoc]

theorem audits_preAuditTrace (cfg : MigrationConfig) :
    audits (preAuditTrace cfg) = [] := by
  simp only [preAuditTrace, audits, preSlackCalls, authCalls,
    createRepoCalls, topicsCalls, labelCalls, hookCalls, collaboratorCalls,
    earlyProtectionCalls, cloudbuildYamlCalls, codeownersFileCalls,
    licenseCalls, readmeCalls, issueTemplateCalls, prTemplateCalls,
    securityCalls, contributingCalls, ownerCalls, teamCalls,
    List.filterMap_append, filterMap_ite_nil, filterMap_flatMap,
    filterMap_slackCalls auditProj (fun _ _ => rfl),
    filterMap_labelList auditProj (fun _ _ => rfl)]
  simp [auditProj, ite_self, filterMap_flatMap, flatMap_nil_fun,
    apply_ite (List.filterMap auditProj)]

/-- A failing first segment aborts the whole segment list. -/
theorem runSegs_head_fail {oracle : Oracle} {s : Seg} {rest : List Seg}
    {t : List PlatformCall} {e : String}
    (h : runSeg oracle s = (t, some e)) :
    runSegs oracle (s :: rest) = (t, some e) := by
  simp [runSegs, h]

/-- A successful first segment prepends its trace. -/
theorem runSegs_head_ok {oracle : Oracle} {s : Seg} {rest : List Seg}
    {t : List PlatformCall} (h : runSeg oracle s = (t, none)) :
    runSegs oracle (s :: rest) =
      (t ++ (runSegs oracle rest).1, (runSegs oracle rest).2) := by
  simp [runSegs, h]

/-- The oracle in which exactly the secret-store calls (GCP secret
creation, Vault write) raise, with the given messages. -/
def secretFailOracle (e1 e2 : String) : Oracle := fun c =>
  match c with
  | .gcpCreateSecret _ _ => some e1
  | .vaultWrite _ _ _ => some e2
  | _ => none

/-- The oracle in which exactly the Slack notification post raises. -/
def slackFailOracle (e : String) : Oracle := fun c =>
  match c with
  | .slackPost _ _ => some e
  | _ => none

theorem eq_empty_of_length_eq_zero {a : String} (h : a.length = 0) :
    a = "" := by
  cases a with
  | mk data =>
    have hd : data = [] := List.eq_nil_of_length_eq_zero h
    subst hd
    rfl

theorem append_ne_empty_left {a : String} (b : String) (h : a ≠ "") :
    a ++ b ≠ "" := by
  intro hc
  have h2 := congrArg String.length hc
  rw [String.length_append] at h2
  have h3 : a.length = 0 := by
    have he : String.length "" = 0 := rfl
    omega
  exact h (eq_empty_of_length_eq_zero h3)

theorem append_ne_empty_right (a : String) {b : String} (h : b ≠ "") :
    a ++ b ≠ "" := by
  intro hc
  have h2 := congrArg String.length hc
  rw [String.length_append] at h2
  have h3 : b.length = 0 := by
    have he : String.length "" = 0 := rfl
    omega
  exact h (eq_empty_of_length_eq_zero h3)

/-! ### Concrete configurations used by witnesses and counterexamples -/

/-- A baseline interactive run: category `normal`, one team, one code
owner, no optional files, no Slack webhook. -/
def baseCfg : MigrationConfig :=
  { orgName := "acme"
    repoName := "svc"
    description := "demo service"
    topicsRaw := ""
    defaultBranch := "main"
    teamSlugsRaw := "platform"
    labelInputs := []
    add_cloudbuild := false
    add_cloudbuild_yaml := false
    categoryRaw := "normal"
    regionRaw := "china"
    codeownersRaw := "alice"
    add_codeowners_file := false
    add_license := false
    add_readme := false
    add_issue_template := false
    add_pr_template := false
    add_security_md := false
    add_contributing_md := false
    add_tekton := false
    add_gcp_secret := false
    add_vault_secret := false
    slackWebhook := none
    gcpProject := "proj"
    gcpSecretId := "sid"
    gcpSecretValue := "sval"
    vaultPath := "vp"
    vaultKey := "vk"
    vaultValue := "vv" }

/-- A baseline web request: category `normal`, one team. -/
def baseReq : WebRequest :=
  { org_name := "acme"
    repo_name := "svc"
    team_slugs := ["platform"]
    labels := []
    add_cloudbuild := false
    category := "normal"
    region := "china"
    codeowners := ["alice"] }

/-! ### Claims -/

/-- **C1** — Collaborator assignment is mutually exclusive by category: in
both the interactive script and the web flow, a run with category `sox` or
`banking` adds as collaborators exactly the supplied code owners
(whitespace-stripped), each with `admin` permission, and adds no team; a
run with category `normal` adds exactly the supplied teams, each with
`push` permission, and adds no individual code owner. -/
theorem c1_collaborator_routing (cfg : MigrationConfig) (r : WebRequest) :
    (cfg.category ∈ ["sox", "banking"] →
      collabAdds (migrationTrace cfg)
          = cfg.codeowners.map (fun o => (pyStrip o, "admin"))
        ∧ teamRepoAdds (migrationTrace cfg) = []
        ∧ teamPerms (migrationTrace cfg) = [])
    ∧ (cfg.category = "normal" →
      teamRepoAdds (migrationTrace cfg) = cfg.teamSlugs.map pyStrip
        ∧ teamPerms (migrationTrace cfg)
          = cfg.teamSlugs.map (fun t => (pyStrip t, "push"))
        ∧ collabAdds (migrationTrace cfg) = [])
    ∧ (r.category ∈ ["sox", "banking"] →
      collabAdds (webCreateCalls r)
          = r.codeowners.map (fun o => (pyStrip o, "admin"))
        ∧ teamRepoAdds (webCreateCalls r) = []
        ∧ teamPerms (webCreateCalls r) = [])
    ∧ (r.category = "normal" →
      teamRepoAdds (webCreateCalls r) = r.team_slugs.map pyStrip
        ∧ teamPerms (webCreateCalls r)
          = r.team_slugs.map (fun t => (pyStrip t, "push"))
        ∧ collabAdds (webCreateCalls r) = []) := by
  refine ⟨fun h => ?_, fun h => ?_, fun h => ?_, fun h => ?_⟩
  · exact ⟨by rw [collabAdds_migrationTrace, if_pos h],
      by rw [teamRepoAdds_migrationTrace, if_pos h],
      by rw [teamPerms_migrationTrace, if_pos h]⟩
  · have hne : cfg.category ∉ ["sox", "banking"] := by rw [h]; decide
    exact ⟨by rw [teamRepoAdds_migrationTrace, if_neg hne],
      by rw [teamPerms_migrationTrace, if_neg hne],
      by rw [collabAdds_migrationTrace, if_neg hne]⟩
  · exact ⟨by rw [collabAdds_webCreateCalls, if_pos h],
      by rw [teamRepoAdds_webCreateCalls, if_pos h],
      by rw [teamPerms_webCreateCalls, if_pos h]⟩
  · have hne : r.category ∉ ["sox", "banking"] := by rw [h]; decide
    exact ⟨by rw [teamRepoAdds_webCreateCalls, if_neg hne],
      by rw [teamPerms_webCreateCalls, if_neg hne],
      by rw [collabAdds_webCreateCalls, if_neg hne]⟩

def cfgC1sox : MigrationConfig :=
  { baseCfg with categoryRaw := "sox", codeownersRaw := "alice,bob" }

def reqC1sox : WebRequest :=
  { baseReq with category := "banking", codeowners := ["carol"] }

/-- Witness for C1 at concrete inputs: a `sox` interactive run, a `normal`
interactive run, a `banking` web request and a `normal` web request. -/
theorem c1_collaborator_routing_witness :
    (collabAdds (migrationTrace cfgC1sox)
        = cfgC1sox.codeowners.map (fun o => (pyStrip o, "admin"))
      ∧ teamRepoAdds (migrationTrace cfgC1sox) = []
      ∧ teamPerms (migrationTrace cfgC1sox) = [])
    ∧ (teamRepoAdds (migrationTrace baseCfg) = baseCfg.teamSlugs.map pyStrip
      ∧ teamPerms (migrationTrace baseCfg)
        = baseCfg.teamSlugs.map (fun t => (pyStrip t, "push"))
      ∧ collabAdds (migrationTrace baseCfg) = [])
    ∧ (collabAdds (webCreateCalls reqC1sox)
        = reqC1sox.codeowners.map (fun o => (pyStrip o, "admin"))
      ∧ teamRepoAdds (webCreateCalls reqC1sox) = []
      ∧ teamPerms (webCreateCalls reqC1sox) = [])
    ∧ (teamRepoAdds (webCreateCalls baseReq)
        = baseReq.team_slugs.map pyStrip
      ∧ teamPerms (webCreateCalls baseReq)
        = baseReq.team_slugs.map (fun t => (pyStrip t, "push"))
      ∧ collabAdds (webCreateCalls baseReq) = []) :=
  ⟨(c1_collaborator_routing cfgC1sox baseReq).1 (by decide),
    (c1_collaborator_routing baseCfg baseReq).2.1 (by decide),
    (c1_collaborator_routing baseCfg reqC1sox).2.2.1 (by decide),
    (c1_collaborator_routing baseCfg baseReq).2.2.2 (by decide)⟩

/-- **C2** — In every run the `edit_protection` calls are, in order: the
early one (1 required approving review) and, in the migration script,
unconditionally the advanced one (2 required approving reviews); both
require code-owner reviews and enforce admins, so the protection in effect
after the final protection step (the platform replaces the whole policy on
each call) has the configured count: 1 after the single web-flow step, 2
after the advanced step of the migration script. -/
theorem c2_branch_protection_final (cfg : MigrationConfig)
    (r : WebRequest) :
    editProtections (migrationTrace cfg)
        = [earlyProtection, advancedProtection]
    ∧ editProtections (webCreateCalls r) = [earlyProtection]
    ∧ earlyProtection.required_approving_review_count = 1
    ∧ earlyProtection.require_code_owner_reviews = true
    ∧ earlyProtection.enforce_admins = true
    ∧ advancedProtection.required_approving_review_count = 2
    ∧ advancedProtection.require_code_owner_reviews = true
    ∧ advancedProtection.enforce_admins = true :=
  ⟨editProtections_migrationTrace cfg, editProtections_webCreateCalls r,
    rfl, rfl, rfl, rfl, rfl, rfl⟩

/-- **C5** — End-to-end scenario: for the request
`{org="acme", repo="svc-x", category="normal", teams=["platform"],
labels=[("bug","d73a4a")], webhook=true}` the web flow issues its calls in
exactly this order: repository created, label `bug` created, webhook
registered, team `platform` added with `push` permission, branch
protection applied with 1 required review (`earlyProtection`).  The
read-only lookups (`get_organization`, `get_team_by_slug`, `get_branch`)
the source performs to obtain handles appear interleaved at their source
positions. -/
theorem c5_end_to_end_order :
    webCreateCalls
        { org_name := "acme"
          repo_name := "svc-x"
          team_slugs := ["platform"]
          labels := [("bug", "d73a4a")]
          add_cloudbuild := true
          category := "normal"
          region := "north-america"
          codeowners := [] } =
      [.getOrganization "acme",
        .createRepo "svc-x" true true none none,
        .createLabel "bug" "d73a4a",
        .createHook "web" CLOUDBUILD_WEBHOOK_URL "json"
          ["push", "pull_request"] true,
        .getTeamBySlug "platform",
        .teamAddToRepos "platform",
        .teamSetRepoPermission "platform" "push",
        .getBranch "main",
        .editProtection earlyProtection] := by
  decide

/-- **C9** — Any category other than exactly `"sox"` or `"banking"` —
including misspellings, the empty string, or (in the web flow, which does
not lowercase the form value) mixed-case strings such as `"SOX"` — takes
the `else` branch and adds teams with `push` permission; neither script
validates category membership in `{sox, banking, normal}`, and the web
`create_github_repo` completes returning `True` for any category value.
The interactive script lowercases its category input at collection time,
as the last conjunct records. -/
theorem c9_category_fallthrough (cfg : MigrationConfig) (r : WebRequest) :
    (cfg.category ∉ ["sox", "banking"] →
      collabAdds (migrationTrace cfg) = []
        ∧ teamPerms (migrationTrace cfg)
          = cfg.teamSlugs.map (fun t => (pyStrip t, "push")))
    ∧ (r.category ∉ ["sox", "banking"] →
      collabAdds (webCreateCalls r) = []
        ∧ teamPerms (webCreateCalls r)
          = r.team_slugs.map (fun t => (pyStrip t, "push")))
    ∧ cfg.category = pyLower (pyStrip cfg.categoryRaw)
    ∧ (create_github_repo r noFail).2 = .ok true := by
  refine ⟨fun h => ?_, fun h => ?_, rfl, ?_⟩
  · exact ⟨by rw [collabAdds_migrationTrace, if_neg h],
      by rw [teamPerms_migrationTrace, if_neg h]⟩
  · exact ⟨by rw [collabAdds_webCreateCalls, if_neg h],
      by rw [teamPerms_webCreateCalls, if_neg h]⟩
  · simp [create_github_repo, runCalls_noFail]

def reqC9 : WebRequest :=
  { baseReq with category := "SOX", codeowners := ["alice"] }

def cfgC9 : MigrationConfig := { baseCfg with categoryRaw := "Sox-Lite" }

/-- Witness for C9: the mixed-case web category `"SOX"` and the
out-of-enum interactive category `"Sox-Lite"` (lowercased to `"sox-lite"`)
are both routed to the team branch, and the web run returns `True`. -/
theorem c9_category_fallthrough_witness :
    (collabAdds (migrationTrace cfgC9) = []
      ∧ teamPerms (migrationTrace cfgC9)
        = cfgC9.teamSlugs.map (fun t => (pyStrip t, "push")))
    ∧ (collabAdds (webCreateCalls reqC9) = []
      ∧ teamPerms (webCreateCalls reqC9)
        = reqC9.team_slugs.map (fun t => (pyStrip t, "push")))
    ∧ (create_github_repo reqC9 noFail).2 = .ok true :=
  ⟨(c9_category_fallthrough cfgC9 reqC9).1 (by decide),
    (c9_category_fallthrough cfgC9 reqC9).2.1 (by decide),
    (c9_category_fallthrough cfgC9 reqC9).2.2.2⟩

/-- **C10** — The web `create_github_repo` is independent of its `region`
argument: two invocations differing only in `region` issue the same calls
with the same arguments and return the same result, and a failure-free
invocation returns `True`. -/
theorem c10_region_independent (r : WebRequest) (r1 r2 : String)
    (oracle : Oracle) :
    create_github_repo { r with region := r1 } oracle
        = create_github_repo { r with region := r2 } oracle
    ∧ (create_github_repo { r with region := r1 } noFail).2 = .ok true := by
  constructor
  · cases r
    rfl
  · simp [create_github_repo, runCalls_noFail]

theorem mk_toList (s : String) : String.mk s.toList = s := by
  cases s
  rfl

def formC3 : WebForm :=
  { org_name := "acme"
    repo_name := "svc"
    team_slugs := "platform"
    labels := "bug"
    add_cloudbuild := false
    category := "normal"
    region := "china"
    codeowners := "" }

/-- **C3 counterexample** — the claim says a label input lacking a colon
"is reported to the user" in every flow, but in the web flow the
colon-less field `"bug"` is silently dropped: label parsing yields no
entry and no message, the run completes, and the only user-visible output
is the success flash — no invalid-format report exists anywhere in the
run. -/
theorem c3_label_parsing_counterexample :
    webParseLabels (pySplit ',' "bug") = some []
    ∧ webIndex formC3 noFail =
        some ([.getOrganization "acme",
          .createRepo "svc" true true none none,
          .getTeamBySlug "platform",
          .teamAddToRepos "platform",
          .teamSetRepoPermission "platform" "push",
          .getBranch "main",
          .editProtection earlyProtection],
          "Repository \x27svc\x27 created and configured!") := by
  decide

/-- **C3 amended** — `"bug:d73a4a"` parses to the entry
`("bug", "d73a4a")` in both flows; an input lacking a colon is rejected,
produces no label entry, and parsing of the remaining inputs continues; in
the interactive flow the rejection is additionally reported to the user
with the invalid-format message, while the web flow skips the input
silently. -/
theorem c3_label_parsing_amended (bad : String) (rest : List String)
    (hnc : ':' ∉ bad.toList) (hne : bad ≠ "") :
    parseLabelCLI bad = none
    ∧ cliCollectLabels (bad :: rest)
        = ((cliCollectLabels rest).1,
          invalidLabelMsg :: (cliCollectLabels rest).2)
    ∧ webParseLabels (bad :: rest) = webParseLabels rest
    ∧ parseLabelCLI "bug:d73a4a" = some ("bug", "d73a4a")
    ∧ webParseLabels ["bug:d73a4a"] = some [("bug", "d73a4a")] := by
  have hsplit : pySplit ':' bad = [bad] := by
    rw [pySplit, splitOnChar_of_not_mem hnc]
    simp [mk_toList]
  have h1 : parseLabelCLI bad = none := by
    simp [parseLabelCLI, hsplit]
  refine ⟨h1, ?_, ?_, by decide, by decide⟩
  · rcases hcc : cliCollectLabels rest with ⟨ls, msgs⟩
    simp [cliCollectLabels, hne, h1, hcc]
  · have hnc2 : ¬(':' ∈ bad.data) := hnc
    simp [webParseLabels, hnc2]

/-- Witness for the amended C3 at the concrete colon-less input `"bug"`
followed by a well-formed input. -/
theorem c3_label_parsing_amended_witness :
    (':' ∉ "bug".toList ∧ "bug" ≠ "")
    ∧ parseLabelCLI "bug" = none
    ∧ cliCollectLabels ["bug", "x:y"]
        = ((cliCollectLabels ["x:y"]).1,
          invalidLabelMsg :: (cliCollectLabels ["x:y"]).2)
    ∧ webParseLabels ["bug", "x:y"] = webParseLabels ["x:y"]
    ∧ parseLabelCLI "bug:d73a4a" = some ("bug", "d73a4a")
    ∧ webParseLabels ["bug:d73a4a"] = some [("bug", "d73a4a")] :=
  ⟨⟨by decide, by decide⟩,
    c3_label_parsing_amended "bug" ["x:y"] (by decide) (by decide)⟩

def cfgC6 : MigrationConfig :=
  { baseCfg with add_gcp_secret := true, add_vault_secret := true }

/-- **C6 counterexample** — the claim says the audit-log append is the
last step (after secret-store creation and notification) and nothing
happens after it; in this concrete failure-free run the advanced
branch-protection call and both secret-store creations are issued strictly
after the audit append. -/
theorem c6_audit_order_counterexample :
    migrationTrace cfgC6 =
      [.getOrganization "acme",
        .createRepo "svc" true true (some "demo service") (some "main"),
        .getTeamBySlug "platform",
        .teamAddToRepos "platform",
        .teamSetRepoPermission "platform" "push",
        .getBranch "main",
        .editProtection earlyProtection]
      ++ PlatformCall.auditAppend "svc" "acme" "normal" "china" ["alice"]
        :: [.editProtection advancedProtection,
          .gcpCreateSecret "proj" "sid",
          .gcpAddSecretVersion "sval",
          .vaultWrite "vp" "vk" "vv"] := by
  decide

/-- **C6 amended** — steps 1–7 and the Slack notification precede the
single audit-log append, but the audit append is not last: the advanced
branch-protection edit, the optional Tekton file commit and the optional
secret-store creations are performed after it. -/
theorem c6_audit_order_amended (cfg : MigrationConfig) :
    migrationTrace cfg =
      preAuditTrace cfg ++ auditCalls cfg
        ++ (advancedProtectionCalls ++ tektonCalls cfg
          ++ gcpHappyCalls cfg ++ vaultHappyCalls cfg)
    ∧ audits (preAuditTrace cfg) = []
    ∧ audits (migrationTrace cfg)
        = [(cfg.repoName, cfg.orgName, cfg.category, cfg.region,
          cfg.codeowners)] :=
  ⟨migrationTrace_decomp cfg, audits_preAuditTrace cfg,
    audits_migrationTrace cfg⟩

/-- **C8** — for every boilerplate-file flag, an enabled flag produces
exactly one file-commit call at the documented path with the (non-empty)
rendered content, and a disabled flag produces none.  The CODEOWNERS guard
additionally tests `codeowners`, which is always a non-empty list because
Python `str.split` never returns an empty list. -/
theorem c8_boilerplate_files (cfg : MigrationConfig) :
    (fileCommits (migrationTrace cfg) "cloudbuild.yaml"
        = if cfg.add_cloudbuild_yaml then [cloudbuildContent] else [])
    ∧ cloudbuildContent ≠ ""
    ∧ (fileCommits (migrationTrace cfg) ".github/CODEOWNERS"
        = if cfg.add_codeowners_file then [codeownersContent cfg] else [])
    ∧ codeownersContent cfg ≠ ""
    ∧ (fileCommits (migrationTrace cfg) "LICENSE"
        = if cfg.add_license then [licenseContent] else [])
    ∧ licenseContent ≠ ""
    ∧ (fileCommits (migrationTrace cfg) "README.md"
        = if cfg.add_readme then [readmeContent cfg] else [])
    ∧ readmeContent cfg ≠ ""
    ∧ (fileCommits (migrationTrace cfg) ".github/ISSUE_TEMPLATE/bug_report.md"
        = if cfg.add_issue_template then [issueTemplateContent] else [])
    ∧ issueTemplateContent ≠ ""
    ∧ (fileCommits (migrationTrace cfg) ".github/PULL_REQUEST_TEMPLATE.md"
        = if cfg.add_pr_template then [prTemplateContent] else [])
    ∧ prTemplateContent ≠ ""
    ∧ (fileCommits (migrationTrace cfg) ".github/SECURITY.md"
        = if cfg.add_security_md then [securityContent] else [])
    ∧ securityContent ≠ ""
    ∧ (fileCommits (migrationTrace cfg) ".github/CONTRIBUTING.md"
        = if cfg.add_contributing_md then [contributingContent] else [])
    ∧ contributingContent ≠ ""
    ∧ (fileCommits (migrationTrace cfg) "tekton.yaml"
        = if cfg.add_tekton then [tektonContent] else [])
    ∧ tektonContent ≠ "" := by
  refine ⟨fileCommits_cloudbuild cfg, by decide,
    fileCommits_codeownersFile cfg, ?_,
    fileCommits_license cfg, by decide,
    fileCommits_readme cfg, ?_,
    fileCommits_issueTemplate cfg, by decide,
    fileCommits_prTemplate cfg, by decide,
    fileCommits_security cfg, by decide,
    fileCommits_contributing cfg, by decide,
    fileCommits_tekton cfg, by decide⟩
  · unfold codeownersContent
    exact append_ne_empty_left _ (by decide)
  · unfold readmeContent
    exact append_ne_empty_right _ (by decide)

def cfgC8 : MigrationConfig :=
  { baseCfg with
    add_cloudbuild_yaml := true
    add_codeowners_file := true
    add_license := true
    add_readme := true
    add_issue_template := true
    add_pr_template := true
    add_security_md := true
    add_contributing_md := true
    add_tekton := true }

/-- Witness for C8 at a concrete run with every boilerplate-file flag
enabled. -/
theorem c8_boilerplate_files_witness :
    fileCommits (migrationTrace cfgC8) "cloudbuild.yaml"
        = (if cfgC8.add_cloudbuild_yaml then [cloudbuildContent] else [])
    ∧ fileCommits (migrationTrace cfgC8) ".github/CODEOWNERS"
        = (if cfgC8.add_codeowners_file then [codeownersContent cfgC8]
          else [])
    ∧ codeownersContent cfgC8 ≠ "" :=
  ⟨(c8_boilerplate_files cfgC8).1, (c8_boilerplate_files cfgC8).2.2.1,
    (c8_boilerplate_files cfgC8).2.2.2.1⟩

def cfgC4slack : MigrationConfig :=
  { baseCfg with
    slackWebhook := some "https://hooks.example/x"
    add_gcp_secret := true }

/-- **C4 counterexample** — the claim says an error raised by the
chat-notification webhook is caught and logged and the remaining steps of
the run still execute; in the source the `requests.post` to the Slack
webhook is not inside any `try/except`, so in this concrete run in which
only the notification post raises, the error propagates as-is and the
remaining steps (audit-log append, advanced branch protection, GCP secret
creation) never execute. -/
theorem c4_optional_integration_counterexample :
    (migrationRun cfgC4slack (slackFailOracle "connection error")).2
        = some "connection error"
    ∧ audits
        (migrationRun cfgC4slack (slackFailOracle "connection error")).1
        = []
    ∧ editProtections
        (migrationRun cfgC4slack (slackFailOracle "connection error")).1
        = [earlyProtection] := by
  decide

/-- **C4 amended** — errors raised by the optional secret-store backends
(GCP Secret Manager, Vault) are caught and logged (the handler print
appears in the trace) and the run completes normally; but an error raised
by the chat-notification webhook post is not caught: it propagates as-is
and aborts every remaining step of the run. -/
theorem c4_optional_integration_amended :
    (∀ (cfg : MigrationConfig) (oracle : Oracle) (e1 e2 : String),
      (∀ x ∈ migrationMainCalls cfg, oracle x = none) →
      (∀ p i, oracle (.gcpCreateSecret p i) = some e1) →
      (∀ p k v, oracle (.vaultWrite p k v) = some e2) →
      migrationRun cfg oracle =
        (migrationMainCalls cfg
          ++ (if cfg.add_gcp_secret then
              [.gcpCreateSecret cfg.gcpProject cfg.gcpSecretId,
                .printMsg ("GCP Secret Manager error: " ++ e1)]
            else [])
          ++ (if cfg.add_vault_secret then
              [.vaultWrite cfg.vaultPath cfg.vaultKey cfg.vaultValue,
                .printMsg ("Vault error: " ++ e2)]
            else []),
          none))
    ∧ (∀ (cfg : MigrationConfig) (oracle : Oracle) (url e : String),
      cfg.slackWebhook = some url →
      (∀ x ∈ preSlackCalls cfg, oracle x = none) →
      oracle (.slackPost url ("Repo " ++ cfg.repoName ++ " created in "
        ++ cfg.orgName ++ ".")) = some e →
      migrationRun cfg oracle =
        (preSlackCalls cfg ++ [.slackPost url ("Repo " ++ cfg.repoName
          ++ " created in " ++ cfg.orgName ++ ".")], some e)) := by
  constructor
  · intro cfg oracle e1 e2 hb h1 h2
    unfold migrationRun migrationSegs
    rw [runSegs_head_ok (by simp only [runSeg]; exact runCalls_benign hb)]
    cases hg : cfg.add_gcp_secret <;> cases hv : cfg.add_vault_secret <;>
      simp [gcpSegs, vaultSegs, hg, hv, runSegs, runSeg, runCalls, h1, h2]
  · intro cfg oracle url e hurl hpre hslack
    have hs : slackCalls cfg =
        [.slackPost url ("Repo " ++ cfg.repoName ++ " created in "
          ++ cfg.orgName ++ ".")] := by
      simp [slackCalls, hurl]
    unfold migrationRun migrationSegs
    apply runSegs_head_fail
    simp only [runSeg]
    rw [migrationMainCalls, hs, List.singleton_append]
    exact runCalls_fail hpre hslack

def cfgC4secrets : MigrationConfig :=
  { baseCfg with add_gcp_secret := true, add_vault_secret := true }

/-- Witness for the amended C4: a concrete run in which both secret-store
backends raise; both errors are caught and logged and the run completes
with no propagated error. -/
theorem c4_optional_integration_amended_witness :
    migrationRun cfgC4secrets (secretFailOracle "gcp down" "vault down") =
      (migrationMainCalls cfgC4secrets
        ++ (if cfgC4secrets.add_gcp_secret then
            [.gcpCreateSecret cfgC4secrets.gcpProject
              cfgC4secrets.gcpSecretId,
              .printMsg ("GCP Secret Manager error: " ++ "gcp down")]
          else [])
        ++ (if cfgC4secrets.add_vault_secret then
            [.vaultWrite cfgC4secrets.vaultPath cfgC4secrets.vaultKey
              cfgC4secrets.vaultValue,
              .printMsg ("Vault error: " ++ "vault down")]
          else []),
        none) :=
  c4_optional_integration_amended.1 cfgC4secrets
    (secretFailOracle "gcp down" "vault down") "gcp down" "vault down"
    (by decide) (fun _ _ => rfl) (fun _ _ _ => rfl)

/-- **C7** — no provisioning step is retried and there is no rollback: in
the migration pipeline, the first failing unguarded remote call appears
exactly once at the end of the attempted-call list, every remaining
pipeline step (including the guarded secret blocks) is skipped, the
already-issued calls are left in place, and the error is returned as-is;
in the web flow, `index` receives the same exception from
`create_github_repo` and flashes it as `"Error: <message>"`. -/
theorem c7_error_propagation :
    (∀ (cfg : MigrationConfig) (oracle : Oracle) (e : String)
        (c : PlatformCall) (pre post : List PlatformCall),
      migrationMainCalls cfg = pre ++ c :: post →
      (∀ x ∈ pre, oracle x = none) →
      oracle c = some e →
      migrationRun cfg oracle = (pre ++ [c], some e))
    ∧ (∀ (form : WebForm) (oracle : Oracle) (e : String)
        (labels : List (String × String)) (c : PlatformCall)
        (pre post : List PlatformCall),
      webParseLabels (pySplit ',' form.labels) = some labels →
      webCreateCalls (webReqOf form labels) = pre ++ c :: post →
      (∀ x ∈ pre, oracle x = none) →
      oracle c = some e →
      webIndex form oracle = some (pre ++ [c], "Error: " ++ e)) := by
  constructor
  · intro cfg oracle e c pre post hm hpre hc
    unfold migrationRun migrationSegs
    apply runSegs_head_fail
    simp only [runSeg]
    rw [hm]
    exact runCalls_fail hpre hc
  · intro form oracle e labels c pre post hp hm hpre hc
    unfold webIndex
    rw [hp]
    have hrun : create_github_repo (webReqOf form labels) oracle
        = (pre ++ [c], .error e) := by
      unfold create_github_repo
      rw [hm, runCalls_fail hpre hc]
    simp [hrun]

def oracleC7 : Oracle := fun c =>
  if c = PlatformCall.createRepo "svc" true true (some "demo service")
      (some "main") then
    some "boom"
  else none

/-- Witness for C7: in a concrete run whose `create_repo` call raises
`"boom"`, the attempted calls are exactly the organization lookup and the
failing `create_repo`, and the error is returned as-is. -/
theorem c7_error_propagation_witness :
    migrationRun baseCfg oracleC7 =
      ([.getOrganization "acme",
        .createRepo "svc" true true (some "demo service") (some "main")],
        some "boom") :=
  c7_error_propagation.1 baseCfg oracleC7 "boom"
    (.createRepo "svc" true true (some "demo service") (some "main"))
    [.getOrganization "acme"]
    [.getTeamBySlug "platform", .teamAddToRepos "platform",
      .teamSetRepoPermission "platform" "push", .getBranch "main",
      .editProtection earlyProtection,
      .auditAppend "svc" "acme" "normal" "china" ["alice"],
      .editProtection advancedProtection]
    (by decide) (by decide) (by decide)

end GhecGhc
